import Mathlib

/-!
# instabot: webhook event extraction (`webhook_events.go`)

A shallow embedding of the twelve `Get*Event` extractors of package `instabot`.

* Go pointers (`*T`) are `Option T`; a dereference of a pointer is the fallible
  operation `deref`, and `xs[i]` on a slice is the fallible operation `index`.
  Every extractor therefore returns `Except Panic _`: `.ok r` is a returned
  record, `.error p` is a run-time panic.
* The record and payload types used by `webhook_events.go` are declared in other
  files of the package.  The payload types that the extractors only copy are
  taken as parameters (`Decls`); the ones whose fields are read are modelled
  with exactly the fields the extractors read.
* `time.Unix` and `Time.UTC` follow Go's standard library.
-/

namespace instabot

/-! ## Run-time failures -/

/-- Run-time panics reachable from field access and slice indexing. -/
inductive Panic where
  | nilDereference
  | indexOutOfRange
deriving DecidableEq, Repr

/-- Dereference of a Go pointer: `p.f` panics when `p` is nil. -/
def deref {α : Type} : Option α → Except Panic α
  | some a => .ok a
  | none => .error .nilDereference

/-- Slice indexing `xs[i]`: panics when `i` is out of range. -/
def index {α : Type} (xs : List α) (i : Nat) : Except Panic α :=
  match xs.get? i with
  | some a => .ok a
  | none => .error .indexOutOfRange

/-! ## Go's `time` package (standard library) -/

namespace time

/-- Location of a `Time`: the only two that `time.Unix(..).UTC()` can produce. -/
inductive Location where
  | UTC
  | Local
deriving DecidableEq, Repr

/-- Two's-complement wrap-around of a mathematical integer into `int64`. -/
def wrapInt64 (x : Int) : Int := (x + 2 ^ 63) % 2 ^ 64 - 2 ^ 63

/-- Wrap-around of a mathematical integer into `uint64`. -/
def wrapUint64 (x : Int) : Nat := (x % 2 ^ 64).toNat

def secondsPerDay : Nat := 86400

def absoluteZeroYear : Int := -292277022399

def internalYear : Int := 1

/-- The constant `(absoluteZeroYear - internalYear) * 365.2425 * secondsPerDay`;
`365.2425 * 86400 = 31556952`. -/
def absoluteToInternal : Int := (absoluteZeroYear - internalYear) * 31556952

def internalToAbsolute : Int := -absoluteToInternal

def unixToInternal : Int := (1969 * 365 + 1969 / 4 - 1969 / 100 + 1969 / 400) * 86400

def internalToUnix : Int := -unixToInternal

/-- A `time.Time` without monotonic clock reading: `wall` holds the nanoseconds,
`ext` the (int64) seconds since January 1, year 1, `loc` the location. -/
structure Time where
  wall : Nat
  ext : Int
  loc : Location
deriving DecidableEq, Repr

/-- Go `unixTime(sec, nsec)`: `Time{uint64(nsec), sec + unixToInternal, Local}`. -/
def unixTime (sec : Int) (nsec : Int) : Time :=
  { wall := wrapUint64 nsec, ext := wrapInt64 (sec + unixToInternal), loc := .Local }

/-- Go `time.Unix(sec, nsec)`: the local Time of the given Unix time; `nsec`
outside `[0, 999999999]` is normalised first. -/
def Unix (sec : Int) (nsec : Int) : Time :=
  if nsec < 0 ∨ nsec ≥ 1000000000 then
    let n := Int.tdiv nsec 1000000000
    let sec := wrapInt64 (sec + n)
    let nsec := wrapInt64 (nsec - wrapInt64 (n * 1000000000))
    if nsec < 0 then
      unixTime (wrapInt64 (sec - 1)) (wrapInt64 (nsec + 1000000000))
    else
      unixTime sec nsec
  else
    unixTime sec nsec

/-- Go `Time.UTC()`: the same instant with the location set to UTC. -/
def Time.UTC (t : Time) : Time := { t with loc := .UTC }

/-- Go `Time.Unix()`: seconds elapsed since January 1, 1970 UTC. -/
def Time.Unix (t : Time) : Int := wrapInt64 (t.ext + internalToUnix)

/-- Go `Time.Nanosecond()`: the sub-second part, in nanoseconds. -/
def Time.Nanosecond (t : Time) : Nat := t.wall % 2 ^ 30

/-- Go `Time.Location()`. -/
def Time.Location (t : Time) : Location := t.loc

/-- Go `Time.abs()`: seconds since the absolute zero year, shifted by the zone
offset unless the location is UTC.  `zone` is the process's local time zone: the
offset in seconds east of UTC in force at a given Unix time. -/
def Time.abs (zone : Int → Int) (t : Time) : Nat :=
  let sec := t.Unix
  let sec := match t.loc with
    | .UTC => sec
    | .Local => wrapInt64 (sec + zone sec)
  wrapUint64 (sec + (unixToInternal + internalToAbsolute))

def daysPer400Years : Nat := 365 * 400 + 97

def daysPer100Years : Nat := 365 * 100 + 24

def daysPer4Years : Nat := 365 * 4 + 1

def daysBefore : List Nat :=
  [0, 31, 59, 90, 120, 151, 181, 212, 243, 273, 304, 334, 365]

/-- Go `isLeap(year)`. -/
def isLeap (year : Int) : Bool :=
  Int.tmod year 4 == 0 && (Int.tmod year 100 != 0 || Int.tmod year 400 == 0)

/-- Go `absDate(abs, true)`: year, month (January = 1) and day of the month. -/
def absDate (abs : Nat) : Int × Nat × Nat :=
  let d := abs / secondsPerDay
  let n := d / daysPer400Years
  let y := 400 * n
  let d := d - daysPer400Years * n
  let n := d / daysPer100Years
  let n := n - n / 4
  let y := y + 100 * n
  let d := d - daysPer100Years * n
  let n := d / daysPer4Years
  let y := y + 4 * n
  let d := d - daysPer4Years * n
  let n := d / 365
  let n := n - n / 4
  let y := y + n
  let d := d - 365 * n
  let year : Int := (y : Int) + absoluteZeroYear
  let day := d
  if isLeap year && day == 31 + 29 - 1 then
    (year, 2, 29)
  else
    let day := if isLeap year && day > 31 + 29 - 1 then day - 1 else day
    let month := day / 31
    let last := daysBefore.getD (month + 1) 0
    if day ≥ last then
      (year, month + 2, day - last + 1)
    else
      (year, month + 1, day - daysBefore.getD month 0 + 1)

/-- Go `absClock(abs)`: hour, minute and second within the day. -/
def absClock (abs : Nat) : Nat × Nat × Nat :=
  let sec := abs % secondsPerDay
  let hour := sec / 3600
  let sec := sec - hour * 3600
  let min := sec / 60
  let sec := sec - min * 60
  (hour, min, sec)

/-- A calendar reading of a `Time`, as printed by RFC 3339
(`YYYY-MM-DDThh:mm:ss` plus the location). -/
structure Civil where
  year : Int
  month : Nat
  day : Nat
  hour : Nat
  min : Nat
  sec : Nat
  nsec : Nat
  loc : Location
deriving DecidableEq, Repr

/-- Go `Time.Date()` and `Time.Clock()` together, with the nanosecond and the
location. -/
def Time.civil (zone : Int → Int) (t : Time) : Civil :=
  let a := t.abs zone
  let date := absDate a
  let clock := absClock a
  { year := date.1, month := date.2.1, day := date.2.2,
    hour := clock.1, min := clock.2.1, sec := clock.2.2,
    nsec := t.Nanosecond, loc := t.loc }

end time

/-! ## Data model -/

/-- Types of package `instabot` that `webhook_events.go` uses but does not
declare, and whose values the extractors only copy.  `StoryRest` and
`PayloadRest` stand for the fields of `ReplyToStory` and `AttachmentPayload`
other than `URL`; `storyRestZero` is the Go zero value of the former, which a
composite literal `ReplyToStory{URL: u}` gives to the fields it leaves out. -/
structure Decls where
  Sender : Type
  Recipient : Type
  Postback : Type
  WebhookQuickReply : Type
  Reaction : Type
  ReferralLink : Type
  WebhookEventType : Type
  StoryRest : Type
  storyRestZero : StoryRest
  PayloadRest : Type

/-- Modelled from the spec: `ReplyToStory`, the story reference; the extractors
read and write its `URL`. -/
structure ReplyToStory (D : Decls) where
  URL : String
  rest : D.StoryRest

/-- Modelled from the spec: `ReplyTo`, the back-reference to a prior message,
with its `mid` and its optional `story`. -/
structure ReplyTo (D : Decls) where
  MID : String
  Story : Option (ReplyToStory D)

/-- Modelled from the spec: `AttachmentPayload`, carrying at least a `url`. -/
structure AttachmentPayload (D : Decls) where
  URL : String
  rest : D.PayloadRest

/-- Modelled from the spec: an attachment record with its `payload` (a struct
value: the code takes its address with `&...Payload`). -/
structure Attachment (D : Decls) where
  Payload : AttachmentPayload D

/-- Modelled from the spec: `Message`, the message sub-payload, with the fields
the extractors read. -/
structure Message (D : Decls) where
  MID : String
  Text : String
  QuickReply : Option D.WebhookQuickReply
  Attachments : List (Attachment D)
  ReplyTo : Option (ReplyTo D)
  Referral : Option D.ReferralLink

/-- Modelled from the spec: `Read`, the read receipt, carrying the `mid` of the
last-seen message. -/
structure Read where
  MID : String

/-- Modelled from the spec: `Messaging`, the envelope.  `Timestamp` is an
`int64` (it is passed to `time.Unix` as is); `Type_` is the field `Type`. -/
structure Messaging (D : Decls) where
  Sender : Option D.Sender
  Recipient : Option D.Recipient
  Timestamp : Int
  PostBack : Option D.Postback
  Message : Option (Message D)
  Reaction : Option D.Reaction
  Read : Option Read
  Referral : Option D.ReferralLink
  Type_ : D.WebhookEventType

/-- An `int64` value. -/
def isInt64 (x : Int) : Prop := -2 ^ 63 ≤ x ∧ x < 2 ^ 63

instance (x : Int) : Decidable (isInt64 x) := by
  unfold isInt64; infer_instance

/-! ## Event records -/

structure PostBackEvent (D : Decls) where
  Sender : Option D.Sender
  Recipient : Option D.Recipient
  Timestamp : time.Time
  Data : Option D.Postback

structure QuickReplyEvent (D : Decls) where
  Sender : Option D.Sender
  Recipient : Option D.Recipient
  Timestamp : time.Time
  MID : String
  Text : String
  Data : Option D.WebhookQuickReply

structure StoryMentionEvent (D : Decls) where
  Sender : Option D.Sender
  Recipient : Option D.Recipient
  Timestamp : time.Time
  MID : String
  Story : Option (ReplyToStory D)

structure StoryReplyEvent (D : Decls) where
  Sender : Option D.Sender
  Recipient : Option D.Recipient
  Timestamp : time.Time
  MID : String
  Text : String
  Story : Option (ReplyToStory D)

structure ReferralMessageEvent (D : Decls) where
  Sender : Option D.Sender
  Recipient : Option D.Recipient
  Timestamp : time.Time
  Referral : Option D.ReferralLink

structure TextMessageEvent (D : Decls) where
  Sender : Option D.Sender
  Recipient : Option D.Recipient
  Timestamp : time.Time
  MID : String
  Text : String
  Referral : Option D.ReferralLink

structure MediaMessageEvent (D : Decls) where
  Sender : Option D.Sender
  Recipient : Option D.Recipient
  Timestamp : time.Time
  MID : String
  Type_ : D.WebhookEventType
  Media : Option (AttachmentPayload D)

structure MessageReplyEvent (D : Decls) where
  Sender : Option D.Sender
  Recipient : Option D.Recipient
  Timestamp : time.Time
  MID : String
  Text : String
  ReplyToMID : String

structure MessageReactionEvent (D : Decls) where
  Sender : Option D.Sender
  Recipient : Option D.Recipient
  Timestamp : time.Time
  Reaction : Option D.Reaction

structure MessageSeenEvent (D : Decls) where
  Sender : Option D.Sender
  Recipient : Option D.Recipient
  Timestamp : time.Time
  SeenMID : String

structure MessageShareEvent (D : Decls) where
  Sender : Option D.Sender
  Recipient : Option D.Recipient
  Timestamp : time.Time
  SharedPayloadURL : String

structure MessageDeleteEvent (D : Decls) where
  Sender : Option D.Sender
  Recipient : Option D.Recipient
  Timestamp : time.Time
  DeletedMID : String

/-! ## The extractors

Each body follows the Go function statement by statement: the composite literal
first (its field expressions in source order), then the guarded assignments. -/

variable {D : Decls}

def Messaging.GetPostBackEvent (m : Messaging D) : Except Panic (PostBackEvent D) := do
  return {
    Sender := m.Sender
    Recipient := m.Recipient
    Timestamp := (time.Unix m.Timestamp 0).UTC
    Data := m.PostBack }

def Messaging.GetQuickReplyEvent (m : Messaging D) : Except Panic (QuickReplyEvent D) := do
  let mut quickReply : QuickReplyEvent D := {
    Sender := m.Sender
    Recipient := m.Recipient
    Timestamp := (time.Unix m.Timestamp 0).UTC
    MID := ""
    Text := ""
    Data := none }
  if m.Message.isSome then
    quickReply := { quickReply with MID := (← deref m.Message).MID }
    quickReply := { quickReply with Text := (← deref m.Message).Text }
    quickReply := { quickReply with Data := (← deref m.Message).QuickReply }
  return quickReply

def Messaging.GetStoryMentionEvent (m : Messaging D) : Except Panic (StoryMentionEvent D) := do
  let mut storyMentionEvent : StoryMentionEvent D := {
    Sender := m.Sender
    Recipient := m.Recipient
    Timestamp := (time.Unix m.Timestamp 0).UTC
    MID := (← deref m.Message).MID
    Story := none }
  if m.Message.isSome then
    storyMentionEvent := { storyMentionEvent with MID := (← deref m.Message).MID }
    if (← deref m.Message).Attachments.length > 0 then
      storyMentionEvent := { storyMentionEvent with
        Story := some {
          URL := (← index (← deref m.Message).Attachments 0).Payload.URL
          rest := D.storyRestZero } }
  return storyMentionEvent

def Messaging.GetStoryReplyEvent (m : Messaging D) : Except Panic (StoryReplyEvent D) := do
  let mut storyReplyEvent : StoryReplyEvent D := {
    Sender := m.Sender
    Recipient := m.Recipient
    Timestamp := (time.Unix m.Timestamp 0).UTC
    MID := ""
    Text := ""
    Story := none }
  if m.Message.isSome then
    storyReplyEvent := { storyReplyEvent with MID := (← deref m.Message).MID }
    storyReplyEvent := { storyReplyEvent with Text := (← deref m.Message).Text }
    if (← deref m.Message).ReplyTo.isSome then
      storyReplyEvent := { storyReplyEvent with
        Story := (← deref (← deref m.Message).ReplyTo).Story }
  return storyReplyEvent

def Messaging.GetReferralEvent (m : Messaging D) : Except Panic (ReferralMessageEvent D) := do
  let referralMessageEvent : ReferralMessageEvent D := {
    Sender := m.Sender
    Recipient := m.Recipient
    Timestamp := (time.Unix m.Timestamp 0).UTC
    Referral := m.Referral }
  return referralMessageEvent

def Messaging.GetTextMessageEvent (m : Messaging D) : Except Panic (TextMessageEvent D) := do
  let mut textMessageEvent : TextMessageEvent D := {
    Sender := m.Sender
    Recipient := m.Recipient
    Timestamp := (time.Unix m.Timestamp 0).UTC
    MID := (← deref m.Message).MID
    Text := (← deref m.Message).Text
    Referral := (← deref m.Message).Referral }
  if m.Message.isSome then
    textMessageEvent := { textMessageEvent with MID := (← deref m.Message).MID }
    textMessageEvent := { textMessageEvent with Text := (← deref m.Message).Text }
    textMessageEvent := { textMessageEvent with Referral := (← deref m.Message).Referral }
  return textMessageEvent

def Messaging.GetMediaMessageEvent (m : Messaging D) : Except Panic (MediaMessageEvent D) := do
  let mut mediaMessageEvent : MediaMessageEvent D := {
    Type_ := m.Type_
    Sender := m.Sender
    Recipient := m.Recipient
    Timestamp := (time.Unix m.Timestamp 0).UTC
    MID := ""
    Media := none }
  if m.Message.isSome then
    mediaMessageEvent := { mediaMessageEvent with MID := (← deref m.Message).MID }
    if (← deref m.Message).Attachments.length > 0 then
      mediaMessageEvent := { mediaMessageEvent with
        Media := some (← index (← deref m.Message).Attachments 0).Payload }
  return mediaMessageEvent

def Messaging.GetMessageReplyEvent (m : Messaging D) : Except Panic (MessageReplyEvent D) := do
  let mut messageReplyEvent : MessageReplyEvent D := {
    Sender := m.Sender
    Recipient := m.Recipient
    Timestamp := (time.Unix m.Timestamp 0).UTC
    MID := ""
    Text := ""
    ReplyToMID := "" }
  if m.Message.isSome then
    messageReplyEvent := { messageReplyEvent with MID := (← deref m.Message).MID }
    messageReplyEvent := { messageReplyEvent with Text := (← deref m.Message).Text }
    if (← deref m.Message).ReplyTo.isSome then
      messageReplyEvent := { messageReplyEvent with
        ReplyToMID := (← deref (← deref m.Message).ReplyTo).MID }
  return messageReplyEvent

def Messaging.GetMessageReactionEvent (m : Messaging D) :
    Except Panic (MessageReactionEvent D) := do
  return {
    Sender := m.Sender
    Recipient := m.Recipient
    Timestamp := (time.Unix m.Timestamp 0).UTC
    Reaction := m.Reaction }

def Messaging.GetMessageSeenEvent (m : Messaging D) : Except Panic (MessageSeenEvent D) := do
  let mut messageSeenEvent : MessageSeenEvent D := {
    Sender := m.Sender
    Recipient := m.Recipient
    Timestamp := (time.Unix m.Timestamp 0).UTC
    SeenMID := "" }
  if m.Read.isSome then
    messageSeenEvent := { messageSeenEvent with SeenMID := (← deref m.Read).MID }
  return messageSeenEvent

def Messaging.GetMessageShareEvent (m : Messaging D) : Except Panic (MessageShareEvent D) := do
  let mut messageShareEvent : MessageShareEvent D := {
    Sender := m.Sender
    Recipient := m.Recipient
    Timestamp := (time.Unix m.Timestamp 0).UTC
    SharedPayloadURL := "" }
  if m.Message.isSome then
    if (← deref m.Message).Attachments.length > 0 then
      messageShareEvent := { messageShareEvent with
        SharedPayloadURL := (← index (← deref m.Message).Attachments 0).Payload.URL }
  return messageShareEvent

def Messaging.GetMessageDeleteEvent (m : Messaging D) : Except Panic (MessageDeleteEvent D) := do
  let mut messageDeletevent : MessageDeleteEvent D := {
    Sender := m.Sender
    Recipient := m.Recipient
    Timestamp := (time.Unix m.Timestamp 0).UTC
    DeletedMID := "" }
  if m.Message.isSome then
    messageDeletevent := { messageDeletevent with DeletedMID := (← deref m.Message).MID }
  return messageDeletevent

/-! ## Sample envelopes -/

/-- A concrete instance of the package's payload types: every payload is a
string, the zero value of the remaining story fields is the empty string. -/
def sampleDecls : Decls where
  Sender := String
  Recipient := String
  Postback := String
  WebhookQuickReply := String
  Reaction := String
  ReferralLink := String
  WebhookEventType := String
  StoryRest := String
  storyRestZero := ""
  PayloadRest := String

/-- A "seen" envelope: `read` is present, `message` is absent. -/
def seenEnvelope : Messaging sampleDecls where
  Sender := some "user-1"
  Recipient := some "page-1"
  Timestamp := 1700000000
  PostBack := none
  Message := none
  Reaction := none
  Read := some { MID := "m9" }
  Referral := none
  Type_ := "message_seen"

/-- A "reaction" envelope at epoch second 0: `reaction` is present, `message`
is absent. -/
def reactionEnvelope : Messaging sampleDecls where
  Sender := some "user-2"
  Recipient := some "page-1"
  Timestamp := 0
  PostBack := none
  Message := none
  Reaction := some "love"
  Read := none
  Referral := none
  Type_ := "reaction"

/-- A "postback" envelope: `postback` is present, `message` is absent. -/
def postbackEnvelope : Messaging sampleDecls where
  Sender := some "user-3"
  Recipient := some "page-1"
  Timestamp := 1700000001
  PostBack := some "GET_STARTED"
  Message := none
  Reaction := none
  Read := none
  Referral := none
  Type_ := "postback"

/-- A "referral" envelope: only the top-level `referral` is present. -/
def referralEnvelope : Messaging sampleDecls where
  Sender := some "user-4"
  Recipient := some "page-1"
  Timestamp := 1700000002
  PostBack := none
  Message := none
  Reaction := none
  Read := none
  Referral := some "ig.me/ref"
  Type_ := "referral"

/-- A message with two attachments, a reply-to with a story, and a referral. -/
def richMessage : Message sampleDecls where
  MID := "m2"
  Text := "look"
  QuickReply := some "YES"
  Attachments := [
    { Payload := { URL := "https://x/a.jpg", rest := "image" } },
    { Payload := { URL := "https://x/b.mp4", rest := "video" } }]
  ReplyTo := some { MID := "m1", Story := some { URL := "https://x/story", rest := "s7" } }
  Referral := some "ad-42"

/-- An envelope carrying `richMessage`. -/
def richEnvelope : Messaging sampleDecls where
  Sender := some "user-5"
  Recipient := some "page-1"
  Timestamp := 1700000000
  PostBack := none
  Message := some richMessage
  Reaction := none
  Read := none
  Referral := some "top-level"
  Type_ := "image"

/-- A plain text message: no attachments, no reply-to, no referral. -/
def plainMessage : Message sampleDecls where
  MID := "m1"
  Text := "hi"
  QuickReply := none
  Attachments := []
  ReplyTo := none
  Referral := none

/-- An envelope carrying `plainMessage`. -/
def plainEnvelope : Messaging sampleDecls where
  Sender := some "user-6"
  Recipient := some "page-1"
  Timestamp := 1700000000
  PostBack := none
  Message := some plainMessage
  Reaction := none
  Read := none
  Referral := none
  Type_ := "text"

/-- An envelope with sender, recipient and timestamp only: every optional
sub-payload is absent. -/
def bareEnvelope : Messaging sampleDecls where
  Sender := some "user-7"
  Recipient := some "page-1"
  Timestamp := 1700000003
  PostBack := none
  Message := none
  Reaction := none
  Read := none
  Referral := none
  Type_ := ""

/-- An envelope with the sender, recipient, timestamp and `read` of
`seenEnvelope`, and every other field different. -/
def seenEnvelopeOther : Messaging sampleDecls where
  Sender := some "user-1"
  Recipient := some "page-1"
  Timestamp := 1700000000
  PostBack := some "MENU"
  Message := some richMessage
  Reaction := some "wow"
  Read := some { MID := "m9" }
  Referral := some "elsewhere"
  Type_ := "image"

/-- An envelope with the sender, recipient, timestamp and `message` of
`richEnvelope`, and every other field different. -/
def richEnvelopeOther : Messaging sampleDecls where
  Sender := some "user-5"
  Recipient := some "page-1"
  Timestamp := 1700000000
  PostBack := some "MENU"
  Message := some richMessage
  Reaction := some "wow"
  Read := some { MID := "m0" }
  Referral := none
  Type_ := "share"

/-- The envelope `m` carrying the message `msg` with its attachments replaced by
`attachments`; every other field of `m` and of `msg` is kept. -/
def Messaging.withAttachments {D : Decls} (m : Messaging D) (msg : instabot.Message D)
    (attachments : List (Attachment D)) : Messaging D :=
  { m with Message := some { msg with Attachments := attachments } }

/-! ## What each extractor computes -/

section Characterisation

variable {D : Decls}

theorem deref_some {α : Type} (a : α) : deref (some a) = .ok a := rfl

theorem deref_none {α : Type} : deref (none : Option α) = .error .nilDereference := rfl

theorem index_zero_cons {α : Type} (a : α) (rest : List α) : index (a :: rest) 0 = .ok a := rfl

theorem getElem_zero_of_cons {α : Type} (xs : List α) (a : α) (rest : List α)
    (h : xs = a :: rest) (h0 : 0 < xs.length) : xs[0] = a := by
  subst h
  rfl

theorem GetPostBackEvent_eq (m : Messaging D) :
    m.GetPostBackEvent = .ok {
      Sender := m.Sender, Recipient := m.Recipient,
      Timestamp := (time.Unix m.Timestamp 0).UTC, Data := m.PostBack } := rfl

theorem GetReferralEvent_eq (m : Messaging D) :
    m.GetReferralEvent = .ok {
      Sender := m.Sender, Recipient := m.Recipient,
      Timestamp := (time.Unix m.Timestamp 0).UTC, Referral := m.Referral } := rfl

theorem GetMessageReactionEvent_eq (m : Messaging D) :
    m.GetMessageReactionEvent = .ok {
      Sender := m.Sender, Recipient := m.Recipient,
      Timestamp := (time.Unix m.Timestamp 0).UTC, Reaction := m.Reaction } := rfl

theorem GetQuickReplyEvent_of_none (m : Messaging D) (h : m.Message = none) :
    m.GetQuickReplyEvent = .ok {
      Sender := m.Sender, Recipient := m.Recipient,
      Timestamp := (time.Unix m.Timestamp 0).UTC,
      MID := "", Text := "", Data := none } := by
  unfold Messaging.GetQuickReplyEvent
  rw [h]
  rfl

theorem GetQuickReplyEvent_of_some (m : Messaging D) (msg : Message D)
    (h : m.Message = some msg) :
    m.GetQuickReplyEvent = .ok {
      Sender := m.Sender, Recipient := m.Recipient,
      Timestamp := (time.Unix m.Timestamp 0).UTC,
      MID := msg.MID, Text := msg.Text, Data := msg.QuickReply } := by
  unfold Messaging.GetQuickReplyEvent
  rw [h]
  rfl

theorem GetTextMessageEvent_of_none (m : Messaging D) (h : m.Message = none) :
    m.GetTextMessageEvent = .error .nilDereference := by
  unfold Messaging.GetTextMessageEvent
  rw [h]
  rfl

theorem GetTextMessageEvent_of_some (m : Messaging D) (msg : Message D)
    (h : m.Message = some msg) :
    m.GetTextMessageEvent = .ok {
      Sender := m.Sender, Recipient := m.Recipient,
      Timestamp := (time.Unix m.Timestamp 0).UTC,
      MID := msg.MID, Text := msg.Text, Referral := msg.Referral } := by
  unfold Messaging.GetTextMessageEvent
  rw [h]
  rfl

theorem GetStoryMentionEvent_of_none (m : Messaging D) (h : m.Message = none) :
    m.GetStoryMentionEvent = .error .nilDereference := by
  unfold Messaging.GetStoryMentionEvent
  rw [h]
  rfl

theorem GetStoryMentionEvent_of_nil (m : Messaging D) (msg : Message D)
    (h : m.Message = some msg) (hnil : msg.Attachments = []) :
    m.GetStoryMentionEvent = .ok {
      Sender := m.Sender, Recipient := m.Recipient,
      Timestamp := (time.Unix m.Timestamp 0).UTC,
      MID := msg.MID, Story := none } := by
  unfold Messaging.GetStoryMentionEvent
  rw [h]
  simp [deref, hnil, bind, Except.bind, pure, Except.pure]

theorem GetStoryMentionEvent_of_cons (m : Messaging D) (msg : Message D)
    (a : Attachment D) (rest : List (Attachment D))
    (h : m.Message = some msg) (hcons : msg.Attachments = a :: rest) :
    m.GetStoryMentionEvent = .ok {
      Sender := m.Sender, Recipient := m.Recipient,
      Timestamp := (time.Unix m.Timestamp 0).UTC,
      MID := msg.MID,
      Story := some { URL := a.Payload.URL, rest := D.storyRestZero } } := by
  unfold Messaging.GetStoryMentionEvent
  rw [h]
  simp [deref, index, hcons, bind, Except.bind, pure, Except.pure]

theorem GetMediaMessageEvent_of_none (m : Messaging D) (h : m.Message = none) :
    m.GetMediaMessageEvent = .ok {
      Sender := m.Sender, Recipient := m.Recipient,
      Timestamp := (time.Unix m.Timestamp 0).UTC,
      MID := "", Type_ := m.Type_, Media := none } := by
  unfold Messaging.GetMediaMessageEvent
  rw [h]
  rfl

theorem GetMediaMessageEvent_of_nil (m : Messaging D) (msg : Message D)
    (h : m.Message = some msg) (hnil : msg.Attachments = []) :
    m.GetMediaMessageEvent = .ok {
      Sender := m.Sender, Recipient := m.Recipient,
      Timestamp := (time.Unix m.Timestamp 0).UTC,
      MID := msg.MID, Type_ := m.Type_, Media := none } := by
  unfold Messaging.GetMediaMessageEvent
  rw [h]
  simp [deref, hnil, bind, Except.bind, pure, Except.pure]

theorem GetMediaMessageEvent_of_cons (m : Messaging D) (msg : Message D)
    (a : Attachment D) (rest : List (Attachment D))
    (h : m.Message = some msg) (hcons : msg.Attachments = a :: rest) :
    m.GetMediaMessageEvent = .ok {
      Sender := m.Sender, Recipient := m.Recipient,
      Timestamp := (time.Unix m.Timestamp 0).UTC,
      MID := msg.MID, Type_ := m.Type_, Media := some a.Payload } := by
  unfold Messaging.GetMediaMessageEvent
  rw [h]
  simp [deref, index, hcons, bind, Except.bind, pure, Except.pure]

theorem GetMessageShareEvent_of_none (m : Messaging D) (h : m.Message = none) :
    m.GetMessageShareEvent = .ok {
      Sender := m.Sender, Recipient := m.Recipient,
      Timestamp := (time.Unix m.Timestamp 0).UTC,
      SharedPayloadURL := "" } := by
  unfold Messaging.GetMessageShareEvent
  rw [h]
  rfl

theorem GetMessageShareEvent_of_nil (m : Messaging D) (msg : Message D)
    (h : m.Message = some msg) (hnil : msg.Attachments = []) :
    m.GetMessageShareEvent = .ok {
      Sender := m.Sender, Recipient := m.Recipient,
      Timestamp := (time.Unix m.Timestamp 0).UTC,
      SharedPayloadURL := "" } := by
  unfold Messaging.GetMessageShareEvent
  rw [h]
  simp [deref, hnil, bind, Except.bind, pure, Except.pure]

theorem GetMessageShareEvent_of_cons (m : Messaging D) (msg : Message D)
    (a : Attachment D) (rest : List (Attachment D))
    (h : m.Message = some msg) (hcons : msg.Attachments = a :: rest) :
    m.GetMessageShareEvent = .ok {
      Sender := m.Sender, Recipient := m.Recipient,
      Timestamp := (time.Unix m.Timestamp 0).UTC,
      SharedPayloadURL := a.Payload.URL } := by
  unfold Messaging.GetMessageShareEvent
  rw [h]
  simp [deref, index, hcons, bind, Except.bind, pure, Except.pure]

theorem GetMessageReplyEvent_of_none (m : Messaging D) (h : m.Message = none) :
    m.GetMessageReplyEvent = .ok {
      Sender := m.Sender, Recipient := m.Recipient,
      Timestamp := (time.Unix m.Timestamp 0).UTC,
      MID := "", Text := "", ReplyToMID := "" } := by
  unfold Messaging.GetMessageReplyEvent
  rw [h]
  rfl

theorem GetMessageReplyEvent_of_some (m : Messaging D) (msg : Message D)
    (h : m.Message = some msg) :
    m.GetMessageReplyEvent = .ok {
      Sender := m.Sender, Recipient := m.Recipient,
      Timestamp := (time.Unix m.Timestamp 0).UTC,
      MID := msg.MID, Text := msg.Text,
      ReplyToMID := match msg.ReplyTo with
        | some replyTo => replyTo.MID
        | none => "" } := by
  unfold Messaging.GetMessageReplyEvent
  rw [h]
  cases hr : msg.ReplyTo <;> simp [deref, hr, bind, Except.bind, pure, Except.pure]

theorem GetStoryReplyEvent_of_none (m : Messaging D) (h : m.Message = none) :
    m.GetStoryReplyEvent = .ok {
      Sender := m.Sender, Recipient := m.Recipient,
      Timestamp := (time.Unix m.Timestamp 0).UTC,
      MID := "", Text := "", Story := none } := by
  unfold Messaging.GetStoryReplyEvent
  rw [h]
  rfl

theorem GetStoryReplyEvent_of_some (m : Messaging D) (msg : Message D)
    (h : m.Message = some msg) :
    m.GetStoryReplyEvent = .ok {
      Sender := m.Sender, Recipient := m.Recipient,
      Timestamp := (time.Unix m.Timestamp 0).UTC,
      MID := msg.MID, Text := msg.Text,
      Story := match msg.ReplyTo with
        | some replyTo => replyTo.Story
        | none => none } := by
  unfold Messaging.GetStoryReplyEvent
  rw [h]
  cases hr : msg.ReplyTo <;> simp [deref, hr, bind, Except.bind, pure, Except.pure]

theorem GetMessageSeenEvent_of_none (m : Messaging D) (h : m.Read = none) :
    m.GetMessageSeenEvent = .ok {
      Sender := m.Sender, Recipient := m.Recipient,
      Timestamp := (time.Unix m.Timestamp 0).UTC, SeenMID := "" } := by
  unfold Messaging.GetMessageSeenEvent
  rw [h]
  rfl

theorem GetMessageSeenEvent_of_some (m : Messaging D) (read : Read)
    (h : m.Read = some read) :
    m.GetMessageSeenEvent = .ok {
      Sender := m.Sender, Recipient := m.Recipient,
      Timestamp := (time.Unix m.Timestamp 0).UTC, SeenMID := read.MID } := by
  unfold Messaging.GetMessageSeenEvent
  rw [h]
  rfl

theorem GetMessageDeleteEvent_of_none (m : Messaging D) (h : m.Message = none) :
    m.GetMessageDeleteEvent = .ok {
      Sender := m.Sender, Recipient := m.Recipient,
      Timestamp := (time.Unix m.Timestamp 0).UTC, DeletedMID := "" } := by
  unfold Messaging.GetMessageDeleteEvent
  rw [h]
  rfl

theorem GetMessageDeleteEvent_of_some (m : Messaging D) (msg : Message D)
    (h : m.Message = some msg) :
    m.GetMessageDeleteEvent = .ok {
      Sender := m.Sender, Recipient := m.Recipient,
      Timestamp := (time.Unix m.Timestamp 0).UTC, DeletedMID := msg.MID } := by
  unfold Messaging.GetMessageDeleteEvent
  rw [h]
  rfl

end Characterisation

/-! ## The timestamp conversion `time.Unix(sec, 0).UTC()` -/

section Timestamp

/-- The converted instant reads back as the very count of seconds it was built
from, for every `int64`. -/
theorem Unix_UTC_seconds (sec : Int) (h : isInt64 sec) :
    ((time.Unix sec 0).UTC).Unix = sec := by
  unfold isInt64 at h
  simp only [time.Unix, time.Time.UTC, time.Time.Unix, time.unixTime, time.wrapInt64,
    time.internalToUnix, time.unixToInternal]
  norm_num
  omega

/-- The converted instant has no sub-second part. -/
theorem Unix_UTC_nanosecond (sec : Int) : ((time.Unix sec 0).UTC).Nanosecond = 0 := rfl

/-- The converted instant is in UTC. -/
theorem Unix_UTC_location (sec : Int) :
    ((time.Unix sec 0).UTC).Location = time.Location.UTC := rfl

/-- The calendar reading of a UTC time does not depend on the local time zone. -/
theorem civil_UTC_zone_irrelevant (t : time.Time) (zone zone2 : Int → Int) :
    (t.UTC).civil zone = (t.UTC).civil zone2 := rfl

/-- Epoch second 0 reads 1970-01-01T00:00:00Z, whatever the local time zone. -/
theorem civil_epoch_zero (zone : Int → Int) :
    ((time.Unix 0 0).UTC).civil zone =
      { year := 1970, month := 1, day := 1, hour := 0, min := 0, sec := 0, nsec := 0,
        loc := time.Location.UTC } :=
  (civil_UTC_zone_irrelevant (time.Unix 0 0) zone (fun _ => 0)).trans (by rfl)

/-- Epoch second 1700000000 reads 2023-11-14T22:13:20Z, whatever the local time
zone. -/
theorem civil_1700000000 (zone : Int → Int) :
    ((time.Unix 1700000000 0).UTC).civil zone =
      { year := 2023, month := 11, day := 14, hour := 22, min := 13, sec := 20, nsec := 0,
        loc := time.Location.UTC } :=
  (civil_UTC_zone_irrelevant (time.Unix 1700000000 0) zone (fun _ => 0)).trans (by rfl)

end Timestamp

/-! ## Totality of the guarded extractors, common fields -/

section Support

variable {D : Decls}

/-- The ten extractors that guard every dereference return a record on every
envelope. -/
theorem guarded_extractors_return (m : Messaging D) :
    (∃ r, m.GetPostBackEvent = .ok r) ∧
    (∃ r, m.GetQuickReplyEvent = .ok r) ∧
    (∃ r, m.GetStoryReplyEvent = .ok r) ∧
    (∃ r, m.GetReferralEvent = .ok r) ∧
    (∃ r, m.GetMediaMessageEvent = .ok r) ∧
    (∃ r, m.GetMessageReplyEvent = .ok r) ∧
    (∃ r, m.GetMessageReactionEvent = .ok r) ∧
    (∃ r, m.GetMessageSeenEvent = .ok r) ∧
    (∃ r, m.GetMessageShareEvent = .ok r) ∧
    (∃ r, m.GetMessageDeleteEvent = .ok r) := by
  refine ⟨⟨_, GetPostBackEvent_eq m⟩, ?_, ?_, ⟨_, GetReferralEvent_eq m⟩, ?_, ?_,
    ⟨_, GetMessageReactionEvent_eq m⟩, ?_, ?_, ?_⟩
  · cases h : m.Message with
    | none => exact ⟨_, GetQuickReplyEvent_of_none m h⟩
    | some msg => exact ⟨_, GetQuickReplyEvent_of_some m msg h⟩
  · cases h : m.Message with
    | none => exact ⟨_, GetStoryReplyEvent_of_none m h⟩
    | some msg => exact ⟨_, GetStoryReplyEvent_of_some m msg h⟩
  · cases h : m.Message with
    | none => exact ⟨_, GetMediaMessageEvent_of_none m h⟩
    | some msg =>
      cases hl : msg.Attachments with
      | nil => exact ⟨_, GetMediaMessageEvent_of_nil m msg h hl⟩
      | cons a rest => exact ⟨_, GetMediaMessageEvent_of_cons m msg a rest h hl⟩
  · cases h : m.Message with
    | none => exact ⟨_, GetMessageReplyEvent_of_none m h⟩
    | some msg => exact ⟨_, GetMessageReplyEvent_of_some m msg h⟩
  · cases h : m.Read with
    | none => exact ⟨_, GetMessageSeenEvent_of_none m h⟩
    | some read => exact ⟨_, GetMessageSeenEvent_of_some m read h⟩
  · cases h : m.Message with
    | none => exact ⟨_, GetMessageShareEvent_of_none m h⟩
    | some msg =>
      cases hl : msg.Attachments with
      | nil => exact ⟨_, GetMessageShareEvent_of_nil m msg h hl⟩
      | cons a rest => exact ⟨_, GetMessageShareEvent_of_cons m msg a rest h hl⟩
  · cases h : m.Message with
    | none => exact ⟨_, GetMessageDeleteEvent_of_none m h⟩
    | some msg => exact ⟨_, GetMessageDeleteEvent_of_some m msg h⟩

/-- The two extractors that read `m.Message.MID` in their composite literal
return a record exactly when `message` is present. -/
theorem unguarded_extractors_return_iff (m : Messaging D) :
    ((∃ r, m.GetTextMessageEvent = .ok r) ↔ m.Message ≠ none) ∧
    ((∃ r, m.GetStoryMentionEvent = .ok r) ↔ m.Message ≠ none) := by
  constructor
  · cases h : m.Message with
    | none => simp [GetTextMessageEvent_of_none m h]
    | some msg => simp [GetTextMessageEvent_of_some m msg h]
  · cases h : m.Message with
    | none => simp [GetStoryMentionEvent_of_none m h]
    | some msg =>
      cases hl : msg.Attachments with
      | nil => simp [GetStoryMentionEvent_of_nil m msg h hl]
      | cons a rest => simp [GetStoryMentionEvent_of_cons m msg a rest h hl]

theorem list_nil_or_cons {α : Type} (xs : List α) :
    xs = [] ∨ ∃ a rest, xs = a :: rest := by
  cases xs with
  | nil => exact Or.inl rfl
  | cons a rest => exact Or.inr ⟨a, rest, rfl⟩

theorem length_pos_of_cons {α : Type} (xs : List α) (a : α) (rest : List α)
    (h : xs = a :: rest) : 0 < xs.length := by
  subst h
  exact Nat.succ_pos _

theorem not_length_pos_of_nil {α : Type} (xs : List α) (h : xs = []) :
    ¬ 0 < xs.length := by
  subst h
  exact Nat.lt_irrefl 0

/-- Whenever an extractor returns a record, the record carries the envelope's
sender and recipient and the timestamp `time.Unix(m.Timestamp, 0).UTC()`. -/
theorem common_fields_of_returned_record (m : Messaging D) :
    (∀ r, m.GetPostBackEvent = .ok r → r.Sender = m.Sender ∧ r.Recipient = m.Recipient ∧
      r.Timestamp = (time.Unix m.Timestamp 0).UTC) ∧
    (∀ r, m.GetQuickReplyEvent = .ok r → r.Sender = m.Sender ∧ r.Recipient = m.Recipient ∧
      r.Timestamp = (time.Unix m.Timestamp 0).UTC) ∧
    (∀ r, m.GetStoryMentionEvent = .ok r → r.Sender = m.Sender ∧ r.Recipient = m.Recipient ∧
      r.Timestamp = (time.Unix m.Timestamp 0).UTC) ∧
    (∀ r, m.GetStoryReplyEvent = .ok r → r.Sender = m.Sender ∧ r.Recipient = m.Recipient ∧
      r.Timestamp = (time.Unix m.Timestamp 0).UTC) ∧
    (∀ r, m.GetReferralEvent = .ok r → r.Sender = m.Sender ∧ r.Recipient = m.Recipient ∧
      r.Timestamp = (time.Unix m.Timestamp 0).UTC) ∧
    (∀ r, m.GetTextMessageEvent = .ok r → r.Sender = m.Sender ∧ r.Recipient = m.Recipient ∧
      r.Timestamp = (time.Unix m.Timestamp 0).UTC) ∧
    (∀ r, m.GetMediaMessageEvent = .ok r → r.Sender = m.Sender ∧ r.Recipient = m.Recipient ∧
      r.Timestamp = (time.Unix m.Timestamp 0).UTC) ∧
    (∀ r, m.GetMessageReplyEvent = .ok r → r.Sender = m.Sender ∧ r.Recipient = m.Recipient ∧
      r.Timestamp = (time.Unix m.Timestamp 0).UTC) ∧
    (∀ r, m.GetMessageReactionEvent = .ok r → r.Sender = m.Sender ∧
      r.Recipient = m.Recipient ∧ r.Timestamp = (time.Unix m.Timestamp 0).UTC) ∧
    (∀ r, m.GetMessageSeenEvent = .ok r → r.Sender = m.Sender ∧ r.Recipient = m.Recipient ∧
      r.Timestamp = (time.Unix m.Timestamp 0).UTC) ∧
    (∀ r, m.GetMessageShareEvent = .ok r → r.Sender = m.Sender ∧ r.Recipient = m.Recipient ∧
      r.Timestamp = (time.Unix m.Timestamp 0).UTC) ∧
    (∀ r, m.GetMessageDeleteEvent = .ok r → r.Sender = m.Sender ∧ r.Recipient = m.Recipient ∧
      r.Timestamp = (time.Unix m.Timestamp 0).UTC) := by
  refine ⟨?_, ?_, ?_, ?_, ?_, ?_, ?_, ?_, ?_, ?_, ?_, ?_⟩
  · intro r hr
    rw [GetPostBackEvent_eq] at hr
    cases hr
    exact ⟨rfl, rfl, rfl⟩
  · intro r hr
    cases h : m.Message with
    | none =>
      rw [GetQuickReplyEvent_of_none m h] at hr
      cases hr
      exact ⟨rfl, rfl, rfl⟩
    | some msg =>
      rw [GetQuickReplyEvent_of_some m msg h] at hr
      cases hr
      exact ⟨rfl, rfl, rfl⟩
  · intro r hr
    cases h : m.Message with
    | none =>
      rw [GetStoryMentionEvent_of_none m h] at hr
      cases hr
    | some msg =>
      rcases list_nil_or_cons msg.Attachments with hl | ⟨a, rest, hl⟩
      · rw [GetStoryMentionEvent_of_nil m msg h hl] at hr
        cases hr
        exact ⟨rfl, rfl, rfl⟩
      · rw [GetStoryMentionEvent_of_cons m msg a rest h hl] at hr
        cases hr
        exact ⟨rfl, rfl, rfl⟩
  · intro r hr
    cases h : m.Message with
    | none =>
      rw [GetStoryReplyEvent_of_none m h] at hr
      cases hr
      exact ⟨rfl, rfl, rfl⟩
    | some msg =>
      rw [GetStoryReplyEvent_of_some m msg h] at hr
      cases hr
      exact ⟨rfl, rfl, rfl⟩
  · intro r hr
    rw [GetReferralEvent_eq] at hr
    cases hr
    exact ⟨rfl, rfl, rfl⟩
  · intro r hr
    cases h : m.Message with
    | none =>
      rw [GetTextMessageEvent_of_none m h] at hr
      cases hr
    | some msg =>
      rw [GetTextMessageEvent_of_some m msg h] at hr
      cases hr
      exact ⟨rfl, rfl, rfl⟩
  · intro r hr
    cases h : m.Message with
    | none =>
      rw [GetMediaMessageEvent_of_none m h] at hr
      cases hr
      exact ⟨rfl, rfl, rfl⟩
    | some msg =>
      rcases list_nil_or_cons msg.Attachments with hl | ⟨a, rest, hl⟩
      · rw [GetMediaMessageEvent_of_nil m msg h hl] at hr
        cases hr
        exact ⟨rfl, rfl, rfl⟩
      · rw [GetMediaMessageEvent_of_cons m msg a rest h hl] at hr
        cases hr
        exact ⟨rfl, rfl, rfl⟩
  · intro r hr
    cases h : m.Message with
    | none =>
      rw [GetMessageReplyEvent_of_none m h] at hr
      cases hr
      exact ⟨rfl, rfl, rfl⟩
    | some msg =>
      rw [GetMessageReplyEvent_of_some m msg h] at hr
      cases hr
      exact ⟨rfl, rfl, rfl⟩
  · intro r hr
    rw [GetMessageReactionEvent_eq] at hr
    cases hr
    exact ⟨rfl, rfl, rfl⟩
  · intro r hr
    cases h : m.Read with
    | none =>
      rw [GetMessageSeenEvent_of_none m h] at hr
      cases hr
      exact ⟨rfl, rfl, rfl⟩
    | some read =>
      rw [GetMessageSeenEvent_of_some m read h] at hr
      cases hr
      exact ⟨rfl, rfl, rfl⟩
  · intro r hr
    cases h : m.Message with
    | none =>
      rw [GetMessageShareEvent_of_none m h] at hr
      cases hr
      exact ⟨rfl, rfl, rfl⟩
    | some msg =>
      rcases list_nil_or_cons msg.Attachments with hl | ⟨a, rest, hl⟩
      · rw [GetMessageShareEvent_of_nil m msg h hl] at hr
        cases hr
        exact ⟨rfl, rfl, rfl⟩
      · rw [GetMessageShareEvent_of_cons m msg a rest h hl] at hr
        cases hr
        exact ⟨rfl, rfl, rfl⟩
  · intro r hr
    cases h : m.Message with
    | none =>
      rw [GetMessageDeleteEvent_of_none m h] at hr
      cases hr
      exact ⟨rfl, rfl, rfl⟩
    | some msg =>
      rw [GetMessageDeleteEvent_of_some m msg h] at hr
      cases hr
      exact ⟨rfl, rfl, rfl⟩

end Support

/-! ## Claims C1 to C4: the unguarded dereference of `m.Message` -/

section Unguarded

/-- C1, evaluated on the code: on the "seen" envelope, whose `message`
sub-payload is absent, `GetTextMessageEvent` and `GetStoryMentionEvent` do not
return a record; both stop with a nil-dereference panic, raised by
`m.Message.MID` in the composite literal that precedes the `m.Message != nil`
guard. -/
theorem text_and_story_mention_panic_on_seenEnvelope :
    seenEnvelope.Message = none ∧
    seenEnvelope.GetTextMessageEvent = .error .nilDereference ∧
    seenEnvelope.GetStoryMentionEvent = .error .nilDereference :=
  ⟨rfl, rfl, rfl⟩

/-- C2, evaluated on the code: on the "postback" envelope, whose `message` is
absent, `GetTextMessageEvent` panics with a nil dereference, so it returns no
record with `MID = ""`, `Text = ""` and `Referral` absent. -/
theorem GetTextMessageEvent_no_empty_record_on_postbackEnvelope :
    postbackEnvelope.Message = none ∧
    postbackEnvelope.GetTextMessageEvent = .error .nilDereference ∧
    ¬ ∃ r, postbackEnvelope.GetTextMessageEvent = .ok r ∧
      r.MID = "" ∧ r.Text = "" ∧ r.Referral = none := by
  refine ⟨rfl, rfl, ?_⟩
  rintro ⟨r, hr, -⟩
  rw [GetTextMessageEvent_of_none postbackEnvelope rfl] at hr
  cases hr

/-- C3, evaluated on the code: on the "referral" envelope, whose `message` is
absent, `GetStoryMentionEvent` panics with a nil dereference (`m.Message.MID` is
read before the presence of `message` is checked), so it returns no record with
`MID = ""` and `Story` absent. -/
theorem GetStoryMentionEvent_no_empty_record_on_referralEnvelope :
    referralEnvelope.Message = none ∧
    referralEnvelope.GetStoryMentionEvent = .error .nilDereference ∧
    ¬ ∃ r, referralEnvelope.GetStoryMentionEvent = .ok r ∧
      r.MID = "" ∧ r.Story = none := by
  refine ⟨rfl, rfl, ?_⟩
  rintro ⟨r, hr, -⟩
  rw [GetStoryMentionEvent_of_none referralEnvelope rfl] at hr
  cases hr

/-- C4, evaluated on the code: on the "reaction" envelope (epoch second 0,
`message` absent) neither `GetTextMessageEvent` nor `GetStoryMentionEvent`
returns a record carrying the envelope's sender, recipient and timestamp: both
panic, while `GetMessageReactionEvent` on the same envelope does return such a
record, reading 1970-01-01T00:00:00Z. -/
theorem common_fields_missing_on_reactionEnvelope :
    (¬ ∃ r, reactionEnvelope.GetTextMessageEvent = .ok r ∧
      r.Sender = reactionEnvelope.Sender ∧ r.Recipient = reactionEnvelope.Recipient ∧
      r.Timestamp.Unix = reactionEnvelope.Timestamp) ∧
    (¬ ∃ r, reactionEnvelope.GetStoryMentionEvent = .ok r ∧
      r.Sender = reactionEnvelope.Sender ∧ r.Recipient = reactionEnvelope.Recipient ∧
      r.Timestamp.Unix = reactionEnvelope.Timestamp) ∧
    (∃ r, reactionEnvelope.GetMessageReactionEvent = .ok r ∧
      r.Sender = reactionEnvelope.Sender ∧ r.Recipient = reactionEnvelope.Recipient ∧
      r.Timestamp.Unix = reactionEnvelope.Timestamp ∧
      ∀ zone, r.Timestamp.civil zone =
        { year := 1970, month := 1, day := 1, hour := 0, min := 0, sec := 0, nsec := 0,
          loc := time.Location.UTC }) := by
  refine ⟨?_, ?_, ?_⟩
  · rintro ⟨r, hr, -⟩
    rw [GetTextMessageEvent_of_none reactionEnvelope rfl] at hr
    cases hr
  · rintro ⟨r, hr, -⟩
    rw [GetStoryMentionEvent_of_none reactionEnvelope rfl] at hr
    cases hr
  · exact ⟨_, GetMessageReactionEvent_eq reactionEnvelope, rfl, rfl,
      Unix_UTC_seconds 0 (by decide), civil_epoch_zero⟩

end Unguarded

/-! ## Claims C5 to C7: the first attachment -/

section Attachments

variable {D : Decls}

/-- C5: when `message` is present, `GetStoryMentionEvent` returns a record whose
`MID` is `message.mid`; with a non-empty `attachments` its `Story` is present
and is the story built from `attachments[0].payload.url` with every other story
field at its zero value; with an empty `attachments` its `Story` is absent. -/
theorem GetStoryMentionEvent_message_present (m : Messaging D) (msg : Message D)
    (h : m.Message = some msg) :
    ∃ r, m.GetStoryMentionEvent = .ok r ∧ r.MID = msg.MID ∧
      (∀ h0 : 0 < msg.Attachments.length,
        r.Story = some { URL := (msg.Attachments[0]).Payload.URL, rest := D.storyRestZero }) ∧
      (msg.Attachments = [] → r.Story = none) := by
  rcases list_nil_or_cons msg.Attachments with hl | ⟨a, rest, hl⟩
  · refine ⟨_, GetStoryMentionEvent_of_nil m msg h hl, rfl, ?_, fun _ => rfl⟩
    intro h0
    exact absurd h0 (not_length_pos_of_nil _ hl)
  · refine ⟨_, GetStoryMentionEvent_of_cons m msg a rest h hl, rfl, ?_, ?_⟩
    · intro h0
      rw [getElem_zero_of_cons msg.Attachments a rest hl h0]
    · intro hnil
      rw [hnil] at hl
      cases hl

/-- C5 at `richEnvelope`: two attachments, the story is built from the first. -/
theorem GetStoryMentionEvent_message_present_witness :
    richEnvelope.Message = some richMessage ∧
    ∃ r, richEnvelope.GetStoryMentionEvent = .ok r ∧ r.MID = "m2" ∧
      r.Story = some { URL := "https://x/a.jpg", rest := "" } := by
  obtain ⟨r, hr, hmid, hstory, -⟩ :=
    GetStoryMentionEvent_message_present richEnvelope richMessage rfl
  exact ⟨rfl, r, hr, hmid, hstory (by decide)⟩

/-- C6: on every envelope `GetMessageShareEvent` returns a record; its
`SharedPayloadURL` is `message.attachments[0].payload.url` when `message` is
present with non-empty `attachments`, and is `""` when `message` is absent or
its `attachments` is empty. -/
theorem GetMessageShareEvent_url (m : Messaging D) :
    ∃ r, m.GetMessageShareEvent = .ok r ∧
      (∀ msg, m.Message = some msg → ∀ h0 : 0 < msg.Attachments.length,
        r.SharedPayloadURL = (msg.Attachments[0]).Payload.URL) ∧
      (m.Message = none → r.SharedPayloadURL = "") ∧
      (∀ msg, m.Message = some msg → msg.Attachments = [] → r.SharedPayloadURL = "") := by
  cases h : m.Message with
  | none =>
    refine ⟨_, GetMessageShareEvent_of_none m h, ?_, fun _ => rfl, ?_⟩
    · intro msg hm
      cases hm
    · intro msg hm
      cases hm
  | some msg0 =>
    rcases list_nil_or_cons msg0.Attachments with hl | ⟨a, rest, hl⟩
    · refine ⟨_, GetMessageShareEvent_of_nil m msg0 h hl, ?_, ?_, ?_⟩
      · intro msg hm h0
        cases hm
        exact absurd h0 (not_length_pos_of_nil _ hl)
      · intro hm
        cases hm
      · intro msg _ _
        rfl
    · refine ⟨_, GetMessageShareEvent_of_cons m msg0 a rest h hl, ?_, ?_, ?_⟩
      · intro msg hm h0
        cases hm
        rw [getElem_zero_of_cons msg0.Attachments a rest hl h0]
      · intro hm
        cases hm
      · intro msg hm hnil
        cases hm
        rw [hnil] at hl
        cases hl

/-- C6 at three envelopes: first of two attachments, no attachments, no
message. -/
theorem GetMessageShareEvent_url_witness :
    (∃ r, richEnvelope.GetMessageShareEvent = .ok r ∧
      r.SharedPayloadURL = "https://x/a.jpg") ∧
    (∃ r, plainEnvelope.GetMessageShareEvent = .ok r ∧ r.SharedPayloadURL = "") ∧
    (∃ r, seenEnvelope.GetMessageShareEvent = .ok r ∧ r.SharedPayloadURL = "") := by
  refine ⟨?_, ?_, ?_⟩
  · obtain ⟨r, hr, h1, -, -⟩ := GetMessageShareEvent_url richEnvelope
    exact ⟨r, hr, h1 richMessage rfl (by decide)⟩
  · obtain ⟨r, hr, -, -, h3⟩ := GetMessageShareEvent_url plainEnvelope
    exact ⟨r, hr, h3 plainMessage rfl rfl⟩
  · obtain ⟨r, hr, -, h2, -⟩ := GetMessageShareEvent_url seenEnvelope
    exact ⟨r, hr, h2 rfl⟩

/-- C7: on every envelope `GetMediaMessageEvent` returns a record whose `Type`
is the envelope's `Type`; its `MID` is `message.mid` when `message` is present
and `""` otherwise; its `Media` is the whole payload of `message.attachments[0]`
when `message` is present with non-empty `attachments`, and is absent when
`message` is absent or `attachments` is empty. -/
theorem GetMediaMessageEvent_fields (m : Messaging D) :
    ∃ r, m.GetMediaMessageEvent = .ok r ∧ r.Type_ = m.Type_ ∧
      (∀ msg, m.Message = some msg → r.MID = msg.MID) ∧
      (m.Message = none → r.MID = "") ∧
      (∀ msg, m.Message = some msg → ∀ h0 : 0 < msg.Attachments.length,
        r.Media = some (msg.Attachments[0]).Payload) ∧
      (m.Message = none → r.Media = none) ∧
      (∀ msg, m.Message = some msg → msg.Attachments = [] → r.Media = none) := by
  cases h : m.Message with
  | none =>
    refine ⟨_, GetMediaMessageEvent_of_none m h, rfl, ?_, fun _ => rfl, ?_, fun _ => rfl, ?_⟩
    · intro msg hm
      cases hm
    · intro msg hm
      cases hm
    · intro msg hm
      cases hm
  | some msg0 =>
    rcases list_nil_or_cons msg0.Attachments with hl | ⟨a, rest, hl⟩
    · refine ⟨_, GetMediaMessageEvent_of_nil m msg0 h hl, rfl, ?_, ?_, ?_, ?_, ?_⟩
      · intro msg hm
        cases hm
        rfl
      · intro hm
        cases hm
      · intro msg hm h0
        cases hm
        exact absurd h0 (not_length_pos_of_nil _ hl)
      · intro hm
        cases hm
      · intro msg _ _
        rfl
    · refine ⟨_, GetMediaMessageEvent_of_cons m msg0 a rest h hl, rfl, ?_, ?_, ?_, ?_, ?_⟩
      · intro msg hm
        cases hm
        rfl
      · intro hm
        cases hm
      · intro msg hm h0
        cases hm
        rw [getElem_zero_of_cons msg0.Attachments a rest hl h0]
      · intro hm
        cases hm
      · intro msg hm hnil
        cases hm
        rw [hnil] at hl
        cases hl

/-- C7 at three envelopes: the whole first payload with the envelope's type, no
attachments, no message. -/
theorem GetMediaMessageEvent_fields_witness :
    (∃ r, richEnvelope.GetMediaMessageEvent = .ok r ∧ r.Type_ = "image" ∧ r.MID = "m2" ∧
      r.Media = some { URL := "https://x/a.jpg", rest := "image" }) ∧
    (∃ r, plainEnvelope.GetMediaMessageEvent = .ok r ∧ r.Type_ = "text" ∧ r.MID = "m1" ∧
      r.Media = none) ∧
    (∃ r, seenEnvelope.GetMediaMessageEvent = .ok r ∧ r.Type_ = "message_seen" ∧
      r.MID = "" ∧ r.Media = none) := by
  refine ⟨?_, ?_, ?_⟩
  · obtain ⟨r, hr, ht, h1, -, h3, -, -⟩ := GetMediaMessageEvent_fields richEnvelope
    exact ⟨r, hr, ht, h1 richMessage rfl, h3 richMessage rfl (by decide)⟩
  · obtain ⟨r, hr, ht, h1, -, -, -, h5⟩ := GetMediaMessageEvent_fields plainEnvelope
    exact ⟨r, hr, ht, h1 plainMessage rfl, h5 plainMessage rfl rfl⟩
  · obtain ⟨r, hr, ht, -, h2, -, h4, -⟩ := GetMediaMessageEvent_fields seenEnvelope
    exact ⟨r, hr, ht, h2 rfl, h4 rfl⟩

end Attachments

/-! ## Claims C8 to C10: text, reply-to message, reply-to story -/

section MessageFields

/-- C8: when `message` is present, `GetTextMessageEvent` returns a record with
`MID = message.mid`, `Text = message.text` and `Referral = message.referral`
(absent when that is absent), whatever `message.attachments` contains; and for
`message = {mid: "m1", text: "hi", attachments: []}` with timestamp 1700000000
the record has `MID "m1"`, `Text "hi"`, no `Referral` and a `Timestamp` reading
2023-11-14T22:13:20Z. -/
theorem GetTextMessageEvent_message_present :
    (∀ (D : Decls) (m : Messaging D) (msg : Message D), m.Message = some msg →
      ∃ r, m.GetTextMessageEvent = .ok r ∧
        r.MID = msg.MID ∧ r.Text = msg.Text ∧ r.Referral = msg.Referral) ∧
    (∀ (D : Decls) (m : Messaging D) (quickReply : Option D.WebhookQuickReply)
      (replyTo : Option (ReplyTo D)),
      m.Timestamp = 1700000000 →
      m.Message = some { MID := "m1", Text := "hi", QuickReply := quickReply,
                         Attachments := [], ReplyTo := replyTo, Referral := none } →
      ∃ r, m.GetTextMessageEvent = .ok r ∧
        r.MID = "m1" ∧ r.Text = "hi" ∧ r.Referral = none ∧
        ∀ zone, r.Timestamp.civil zone =
          { year := 2023, month := 11, day := 14, hour := 22, min := 13, sec := 20,
            nsec := 0, loc := time.Location.UTC }) := by
  constructor
  · intro D m msg h
    exact ⟨_, GetTextMessageEvent_of_some m msg h, rfl, rfl, rfl⟩
  · intro D m quickReply replyTo ht h
    refine ⟨_, GetTextMessageEvent_of_some m _ h, rfl, rfl, rfl, ?_⟩
    intro zone
    show ((time.Unix m.Timestamp 0).UTC).civil zone = _
    rw [ht]
    exact civil_1700000000 zone

/-- C8 at `richEnvelope` (attachments and a referral present) and at
`plainEnvelope` (the scenario of the specification). -/
theorem GetTextMessageEvent_message_present_witness :
    (richEnvelope.Message = some richMessage ∧
      ∃ r, richEnvelope.GetTextMessageEvent = .ok r ∧
        r.MID = "m2" ∧ r.Text = "look" ∧ r.Referral = some "ad-42") ∧
    (plainEnvelope.Timestamp = 1700000000 ∧
      ∃ r, plainEnvelope.GetTextMessageEvent = .ok r ∧
        r.MID = "m1" ∧ r.Text = "hi" ∧ r.Referral = none ∧
        ∀ zone, r.Timestamp.civil zone =
          { year := 2023, month := 11, day := 14, hour := 22, min := 13, sec := 20,
            nsec := 0, loc := time.Location.UTC }) :=
  ⟨⟨rfl, GetTextMessageEvent_message_present.1 sampleDecls richEnvelope richMessage rfl⟩,
   ⟨rfl, GetTextMessageEvent_message_present.2 sampleDecls plainEnvelope none none rfl rfl⟩⟩

variable {D : Decls}

/-- C9: on every envelope `GetMessageReplyEvent` returns a record whose
`ReplyToMID` is `message.reply_to.mid` when `message` and `message.reply_to` are
both present, and `""` when `message` or `message.reply_to` is absent; its `MID`
and `Text` are `message.mid` and `message.text` when `message` is present and
`""` otherwise. -/
theorem GetMessageReplyEvent_fields (m : Messaging D) :
    ∃ r, m.GetMessageReplyEvent = .ok r ∧
      (∀ msg replyTo, m.Message = some msg → msg.ReplyTo = some replyTo →
        r.ReplyToMID = replyTo.MID) ∧
      (m.Message = none → r.ReplyToMID = "") ∧
      (∀ msg, m.Message = some msg → msg.ReplyTo = none → r.ReplyToMID = "") ∧
      (∀ msg, m.Message = some msg → r.MID = msg.MID ∧ r.Text = msg.Text) ∧
      (m.Message = none → r.MID = "" ∧ r.Text = "") := by
  cases h : m.Message with
  | none =>
    refine ⟨_, GetMessageReplyEvent_of_none m h, ?_, fun _ => rfl, ?_, ?_, fun _ => ⟨rfl, rfl⟩⟩
    · intro msg replyTo hm
      cases hm
    · intro msg hm
      cases hm
    · intro msg hm
      cases hm
  | some msg0 =>
    refine ⟨_, GetMessageReplyEvent_of_some m msg0 h, ?_, ?_, ?_, ?_, ?_⟩
    · intro msg replyTo hm hr
      cases hm
      simp only [hr]
    · intro hm
      cases hm
    · intro msg hm hr
      cases hm
      simp only [hr]
    · intro msg hm
      cases hm
      exact ⟨rfl, rfl⟩
    · intro hm
      cases hm

/-- C9 at three envelopes: reply-to present, reply-to absent, message absent. -/
theorem GetMessageReplyEvent_fields_witness :
    (∃ r, richEnvelope.GetMessageReplyEvent = .ok r ∧
      r.ReplyToMID = "m1" ∧ r.MID = "m2" ∧ r.Text = "look") ∧
    (∃ r, plainEnvelope.GetMessageReplyEvent = .ok r ∧
      r.ReplyToMID = "" ∧ r.MID = "m1" ∧ r.Text = "hi") ∧
    (∃ r, seenEnvelope.GetMessageReplyEvent = .ok r ∧
      r.ReplyToMID = "" ∧ r.MID = "" ∧ r.Text = "") := by
  refine ⟨?_, ?_, ?_⟩
  · obtain ⟨r, hr, h1, -, -, h4, -⟩ := GetMessageReplyEvent_fields richEnvelope
    exact ⟨r, hr, h1 richMessage _ rfl rfl, (h4 richMessage rfl).1, (h4 richMessage rfl).2⟩
  · obtain ⟨r, hr, -, -, h3, h4, -⟩ := GetMessageReplyEvent_fields plainEnvelope
    exact ⟨r, hr, h3 plainMessage rfl rfl, (h4 plainMessage rfl).1, (h4 plainMessage rfl).2⟩
  · obtain ⟨r, hr, -, h2, -, -, h5⟩ := GetMessageReplyEvent_fields seenEnvelope
    exact ⟨r, hr, h2 rfl, (h5 rfl).1, (h5 rfl).2⟩

/-- C10: on every envelope `GetStoryReplyEvent` returns a record whose `Story`
is `message.reply_to.story` when `message` and `message.reply_to` are both
present (absent if that story is absent), and is absent when `message` or
`message.reply_to` is absent; its `MID` and `Text` are `message.mid` and
`message.text` when `message` is present and `""` otherwise. -/
theorem GetStoryReplyEvent_fields (m : Messaging D) :
    ∃ r, m.GetStoryReplyEvent = .ok r ∧
      (∀ msg replyTo, m.Message = some msg → msg.ReplyTo = some replyTo →
        r.Story = replyTo.Story) ∧
      (m.Message = none → r.Story = none) ∧
      (∀ msg, m.Message = some msg → msg.ReplyTo = none → r.Story = none) ∧
      (∀ msg, m.Message = some msg → r.MID = msg.MID ∧ r.Text = msg.Text) ∧
      (m.Message = none → r.MID = "" ∧ r.Text = "") := by
  cases h : m.Message with
  | none =>
    refine ⟨_, GetStoryReplyEvent_of_none m h, ?_, fun _ => rfl, ?_, ?_, fun _ => ⟨rfl, rfl⟩⟩
    · intro msg replyTo hm
      cases hm
    · intro msg hm
      cases hm
    · intro msg hm
      cases hm
  | some msg0 =>
    refine ⟨_, GetStoryReplyEvent_of_some m msg0 h, ?_, ?_, ?_, ?_, ?_⟩
    · intro msg replyTo hm hr
      cases hm
      simp only [hr]
    · intro hm
      cases hm
    · intro msg hm hr
      cases hm
      simp only [hr]
    · intro msg hm
      cases hm
      exact ⟨rfl, rfl⟩
    · intro hm
      cases hm

/-- C10 at three envelopes: reply-to with a story, reply-to absent, message
absent. -/
theorem GetStoryReplyEvent_fields_witness :
    (∃ r, richEnvelope.GetStoryReplyEvent = .ok r ∧
      r.Story = some { URL := "https://x/story", rest := "s7" } ∧
      r.MID = "m2" ∧ r.Text = "look") ∧
    (∃ r, plainEnvelope.GetStoryReplyEvent = .ok r ∧
      r.Story = none ∧ r.MID = "m1" ∧ r.Text = "hi") ∧
    (∃ r, seenEnvelope.GetStoryReplyEvent = .ok r ∧
      r.Story = none ∧ r.MID = "" ∧ r.Text = "") := by
  refine ⟨?_, ?_, ?_⟩
  · obtain ⟨r, hr, h1, -, -, h4, -⟩ := GetStoryReplyEvent_fields richEnvelope
    exact ⟨r, hr, h1 richMessage _ rfl rfl, (h4 richMessage rfl).1, (h4 richMessage rfl).2⟩
  · obtain ⟨r, hr, -, -, h3, h4, -⟩ := GetStoryReplyEvent_fields plainEnvelope
    exact ⟨r, hr, h3 plainMessage rfl rfl, (h4 plainMessage rfl).1, (h4 plainMessage rfl).2⟩
  · obtain ⟨r, hr, -, h2, -, -, h5⟩ := GetStoryReplyEvent_fields seenEnvelope
    exact ⟨r, hr, h2 rfl, (h5 rfl).1, (h5 rfl).2⟩

end MessageFields

/-! ## Claims C11 to C14: read receipt, pass-through payloads, quick reply, delete -/

section SubPayloads

/-- C11: on every envelope `GetMessageSeenEvent` returns a record whose
`SeenMID` is `read.mid` when `read` is present and `""` when `read` is absent;
with `read = {mid: "m9"}` the record has `SeenMID = "m9"`. -/
theorem GetMessageSeenEvent_seen_mid :
    (∀ (D : Decls) (m : Messaging D),
      ∃ r, m.GetMessageSeenEvent = .ok r ∧
        (∀ read, m.Read = some read → r.SeenMID = read.MID) ∧
        (m.Read = none → r.SeenMID = "")) ∧
    (∀ (D : Decls) (m : Messaging D), m.Read = some { MID := "m9" } →
      ∃ r, m.GetMessageSeenEvent = .ok r ∧ r.SeenMID = "m9") := by
  constructor
  · intro D m
    cases h : m.Read with
    | none =>
      refine ⟨_, GetMessageSeenEvent_of_none m h, ?_, fun _ => rfl⟩
      intro read hr
      cases hr
    | some read0 =>
      refine ⟨_, GetMessageSeenEvent_of_some m read0 h, ?_, ?_⟩
      · intro read hr
        cases hr
        rfl
      · intro hr
        cases hr
  · intro D m h
    exact ⟨_, GetMessageSeenEvent_of_some m _ h, rfl⟩

/-- C11 at `seenEnvelope` (read is `{mid: "m9"}`) and at `plainEnvelope` (read
absent). -/
theorem GetMessageSeenEvent_seen_mid_witness :
    (∃ r, seenEnvelope.GetMessageSeenEvent = .ok r ∧ r.SeenMID = "m9") ∧
    (∃ r, plainEnvelope.GetMessageSeenEvent = .ok r ∧ r.SeenMID = "") := by
  refine ⟨GetMessageSeenEvent_seen_mid.2 sampleDecls seenEnvelope rfl, ?_⟩
  obtain ⟨r, hr, -, h2⟩ := GetMessageSeenEvent_seen_mid.1 sampleDecls plainEnvelope
  exact ⟨r, hr, h2 rfl⟩

variable {D : Decls}

/-- C12: on every envelope the three pass-through extractors return a record
holding the corresponding optional sub-payload unchanged: `GetPostBackEvent.Data`
is `postback`, `GetMessageReactionEvent.Reaction` is `reaction`,
`GetReferralEvent.Referral` is the top-level `referral`; each of these fields is
absent exactly when the sub-payload is absent. -/
theorem pass_through_extractors (m : Messaging D) :
    (∃ r, m.GetPostBackEvent = .ok r ∧ r.Data = m.PostBack ∧
      (r.Data = none ↔ m.PostBack = none)) ∧
    (∃ r, m.GetMessageReactionEvent = .ok r ∧ r.Reaction = m.Reaction ∧
      (r.Reaction = none ↔ m.Reaction = none)) ∧
    (∃ r, m.GetReferralEvent = .ok r ∧ r.Referral = m.Referral ∧
      (r.Referral = none ↔ m.Referral = none)) :=
  ⟨⟨_, GetPostBackEvent_eq m, rfl, Iff.rfl⟩,
   ⟨_, GetMessageReactionEvent_eq m, rfl, Iff.rfl⟩,
   ⟨_, GetReferralEvent_eq m, rfl, Iff.rfl⟩⟩

/-- C12 at three envelopes, each with exactly one of the three sub-payloads. -/
theorem pass_through_extractors_witness :
    (∃ r, postbackEnvelope.GetPostBackEvent = .ok r ∧ r.Data = some "GET_STARTED") ∧
    (∃ r, postbackEnvelope.GetMessageReactionEvent = .ok r ∧ r.Reaction = none) ∧
    (∃ r, reactionEnvelope.GetMessageReactionEvent = .ok r ∧ r.Reaction = some "love") ∧
    (∃ r, reactionEnvelope.GetReferralEvent = .ok r ∧ r.Referral = none) ∧
    (∃ r, referralEnvelope.GetReferralEvent = .ok r ∧ r.Referral = some "ig.me/ref") ∧
    (∃ r, referralEnvelope.GetPostBackEvent = .ok r ∧ r.Data = none) := by
  obtain ⟨⟨r1, h1, d1, -⟩, ⟨r2, h2, d2, -⟩, -⟩ := pass_through_extractors postbackEnvelope
  obtain ⟨-, ⟨r3, h3, d3, -⟩, ⟨r4, h4, d4, -⟩⟩ := pass_through_extractors reactionEnvelope
  obtain ⟨⟨r6, h6, -, i6⟩, -, ⟨r5, h5, d5, -⟩⟩ := pass_through_extractors referralEnvelope
  exact ⟨⟨r1, h1, d1⟩, ⟨r2, h2, d2⟩, ⟨r3, h3, d3⟩, ⟨r4, h4, d4⟩, ⟨r5, h5, d5⟩,
    ⟨r6, h6, i6.mpr rfl⟩⟩

/-- C13: on every envelope `GetQuickReplyEvent` returns a record with
`MID = message.mid`, `Text = message.text` and `Data = message.quick_reply` when
`message` is present, and `MID = ""`, `Text = ""` and `Data` absent when
`message` is absent. -/
theorem GetQuickReplyEvent_fields (m : Messaging D) :
    ∃ r, m.GetQuickReplyEvent = .ok r ∧
      (∀ msg, m.Message = some msg →
        r.MID = msg.MID ∧ r.Text = msg.Text ∧ r.Data = msg.QuickReply) ∧
      (m.Message = none → r.MID = "" ∧ r.Text = "" ∧ r.Data = none) := by
  cases h : m.Message with
  | none =>
    refine ⟨_, GetQuickReplyEvent_of_none m h, ?_, fun _ => ⟨rfl, rfl, rfl⟩⟩
    intro msg hm
    cases hm
  | some msg0 =>
    refine ⟨_, GetQuickReplyEvent_of_some m msg0 h, ?_, ?_⟩
    · intro msg hm
      cases hm
      exact ⟨rfl, rfl, rfl⟩
    · intro hm
      cases hm

/-- C13 at three envelopes: quick reply present, message without quick reply,
message absent. -/
theorem GetQuickReplyEvent_fields_witness :
    (∃ r, richEnvelope.GetQuickReplyEvent = .ok r ∧
      r.MID = "m2" ∧ r.Text = "look" ∧ r.Data = some "YES") ∧
    (∃ r, plainEnvelope.GetQuickReplyEvent = .ok r ∧
      r.MID = "m1" ∧ r.Text = "hi" ∧ r.Data = none) ∧
    (∃ r, seenEnvelope.GetQuickReplyEvent = .ok r ∧
      r.MID = "" ∧ r.Text = "" ∧ r.Data = none) := by
  refine ⟨?_, ?_, ?_⟩
  · obtain ⟨r, hr, h1, -⟩ := GetQuickReplyEvent_fields richEnvelope
    exact ⟨r, hr, h1 richMessage rfl⟩
  · obtain ⟨r, hr, h1, -⟩ := GetQuickReplyEvent_fields plainEnvelope
    exact ⟨r, hr, h1 plainMessage rfl⟩
  · obtain ⟨r, hr, -, h2⟩ := GetQuickReplyEvent_fields seenEnvelope
    exact ⟨r, hr, h2 rfl⟩

/-- C14: on every envelope `GetMessageDeleteEvent` returns a record whose
`DeletedMID` is `message.mid` when `message` is present and `""` when `message`
is absent. -/
theorem GetMessageDeleteEvent_deleted_mid (m : Messaging D) :
    ∃ r, m.GetMessageDeleteEvent = .ok r ∧
      (∀ msg, m.Message = some msg → r.DeletedMID = msg.MID) ∧
      (m.Message = none → r.DeletedMID = "") := by
  cases h : m.Message with
  | none =>
    refine ⟨_, GetMessageDeleteEvent_of_none m h, ?_, fun _ => rfl⟩
    intro msg hm
    cases hm
  | some msg0 =>
    refine ⟨_, GetMessageDeleteEvent_of_some m msg0 h, ?_, ?_⟩
    · intro msg hm
      cases hm
      rfl
    · intro hm
      cases hm

/-- C14 at `richEnvelope` (message present) and `seenEnvelope` (message
absent). -/
theorem GetMessageDeleteEvent_deleted_mid_witness :
    (∃ r, richEnvelope.GetMessageDeleteEvent = .ok r ∧ r.DeletedMID = "m2") ∧
    (∃ r, seenEnvelope.GetMessageDeleteEvent = .ok r ∧ r.DeletedMID = "") := by
  refine ⟨?_, ?_⟩
  · obtain ⟨r, hr, h1, -⟩ := GetMessageDeleteEvent_deleted_mid richEnvelope
    exact ⟨r, hr, h1 richMessage rfl⟩
  · obtain ⟨r, hr, -, h2⟩ := GetMessageDeleteEvent_deleted_mid seenEnvelope
    exact ⟨r, hr, h2 rfl⟩

end SubPayloads

/-! ## Claims C15 and C16: only the first attachment, and the same URL -/

section FirstAttachment

variable {D : Decls}

/-- C15: two envelopes that differ only in what follows the first element of
`message.attachments` (same first attachment, any two tails) get the same record
from `GetStoryMentionEvent`, from `GetMessageShareEvent` and from
`GetMediaMessageEvent`. -/
theorem first_attachment_only (m : Messaging D) (msg : Message D) (a : Attachment D)
    (tail1 tail2 : List (Attachment D)) :
    (∃ r, (m.withAttachments msg (a :: tail1)).GetStoryMentionEvent = .ok r ∧
          (m.withAttachments msg (a :: tail2)).GetStoryMentionEvent = .ok r) ∧
    (∃ r, (m.withAttachments msg (a :: tail1)).GetMessageShareEvent = .ok r ∧
          (m.withAttachments msg (a :: tail2)).GetMessageShareEvent = .ok r) ∧
    (∃ r, (m.withAttachments msg (a :: tail1)).GetMediaMessageEvent = .ok r ∧
          (m.withAttachments msg (a :: tail2)).GetMediaMessageEvent = .ok r) :=
  ⟨⟨_, GetStoryMentionEvent_of_cons (m.withAttachments msg (a :: tail1))
       { msg with Attachments := a :: tail1 } a tail1 rfl rfl,
       GetStoryMentionEvent_of_cons (m.withAttachments msg (a :: tail2))
       { msg with Attachments := a :: tail2 } a tail2 rfl rfl⟩,
   ⟨_, GetMessageShareEvent_of_cons (m.withAttachments msg (a :: tail1))
       { msg with Attachments := a :: tail1 } a tail1 rfl rfl,
       GetMessageShareEvent_of_cons (m.withAttachments msg (a :: tail2))
       { msg with Attachments := a :: tail2 } a tail2 rfl rfl⟩,
   ⟨_, GetMediaMessageEvent_of_cons (m.withAttachments msg (a :: tail1))
       { msg with Attachments := a :: tail1 } a tail1 rfl rfl,
       GetMediaMessageEvent_of_cons (m.withAttachments msg (a :: tail2))
       { msg with Attachments := a :: tail2 } a tail2 rfl rfl⟩⟩

/-- C15 at `richEnvelope`: its two attachments against the first one alone. -/
theorem first_attachment_only_witness :
    richEnvelope.withAttachments richMessage
        [{ Payload := { URL := "https://x/a.jpg", rest := "image" } },
         { Payload := { URL := "https://x/b.mp4", rest := "video" } }] = richEnvelope ∧
    (∃ r, richEnvelope.GetStoryMentionEvent = .ok r ∧
      (richEnvelope.withAttachments richMessage
        [{ Payload := { URL := "https://x/a.jpg", rest := "image" } }]).GetStoryMentionEvent
        = .ok r) ∧
    (∃ r, richEnvelope.GetMessageShareEvent = .ok r ∧
      (richEnvelope.withAttachments richMessage
        [{ Payload := { URL := "https://x/a.jpg", rest := "image" } }]).GetMessageShareEvent
        = .ok r) ∧
    (∃ r, richEnvelope.GetMediaMessageEvent = .ok r ∧
      (richEnvelope.withAttachments richMessage
        [{ Payload := { URL := "https://x/a.jpg", rest := "image" } }]).GetMediaMessageEvent
        = .ok r) :=
  ⟨rfl, first_attachment_only richEnvelope richMessage
    { Payload := { URL := "https://x/a.jpg", rest := "image" } }
    [{ Payload := { URL := "https://x/b.mp4", rest := "video" } }] []⟩

/-- C16: when `message` is present with a non-empty `attachments`, the three
attachment-bearing extractors return records that agree on the URL:
`GetStoryMentionEvent`'s `Story.URL`, `GetMessageShareEvent`'s
`SharedPayloadURL` and `GetMediaMessageEvent`'s `Media.URL` all equal
`message.attachments[0].payload.url`; with
`attachments = [{payload: {url: "https://x/a.jpg"}}]` each is
`"https://x/a.jpg"`. -/
theorem attachment_extractors_agree_on_url :
    (∀ (D : Decls) (m : Messaging D) (msg : Message D), m.Message = some msg →
      ∀ h0 : 0 < msg.Attachments.length,
      ∃ rStory rShare rMedia story media,
        m.GetStoryMentionEvent = .ok rStory ∧ m.GetMessageShareEvent = .ok rShare ∧
        m.GetMediaMessageEvent = .ok rMedia ∧
        rStory.Story = some story ∧ rMedia.Media = some media ∧
        story.URL = (msg.Attachments[0]).Payload.URL ∧
        rShare.SharedPayloadURL = (msg.Attachments[0]).Payload.URL ∧
        media.URL = (msg.Attachments[0]).Payload.URL) ∧
    (∀ (D : Decls) (m : Messaging D) (msg : Message D) (rest : D.PayloadRest),
      m.Message = some msg →
      msg.Attachments = [{ Payload := { URL := "https://x/a.jpg", rest := rest } }] →
      ∃ rStory rShare rMedia story media,
        m.GetStoryMentionEvent = .ok rStory ∧ m.GetMessageShareEvent = .ok rShare ∧
        m.GetMediaMessageEvent = .ok rMedia ∧
        rStory.Story = some story ∧ rMedia.Media = some media ∧
        story.URL = "https://x/a.jpg" ∧
        rShare.SharedPayloadURL = "https://x/a.jpg" ∧
        media.URL = "https://x/a.jpg") := by
  constructor
  · intro D m msg h h0
    rcases list_nil_or_cons msg.Attachments with hl | ⟨a, rest, hl⟩
    · exact absurd h0 (not_length_pos_of_nil _ hl)
    · have h00 : (msg.Attachments[0]) = a := getElem_zero_of_cons msg.Attachments a rest hl h0
      refine ⟨_, _, _, _, _, GetStoryMentionEvent_of_cons m msg a rest h hl,
        GetMessageShareEvent_of_cons m msg a rest h hl,
        GetMediaMessageEvent_of_cons m msg a rest h hl, rfl, rfl, ?_, ?_, ?_⟩
      · rw [h00]
      · rw [h00]
      · rw [h00]
  · intro D m msg rest h hl
    exact ⟨_, _, _, _, _, GetStoryMentionEvent_of_cons m msg _ [] h hl,
      GetMessageShareEvent_of_cons m msg _ [] h hl,
      GetMediaMessageEvent_of_cons m msg _ [] h hl, rfl, rfl, rfl, rfl, rfl⟩

/-- C16 at `richEnvelope`, whose first attachment has the URL
`"https://x/a.jpg"`. -/
theorem attachment_extractors_agree_on_url_witness :
    richEnvelope.Message = some richMessage ∧
    ∃ rStory rShare rMedia story media,
      richEnvelope.GetStoryMentionEvent = .ok rStory ∧
      richEnvelope.GetMessageShareEvent = .ok rShare ∧
      richEnvelope.GetMediaMessageEvent = .ok rMedia ∧
      rStory.Story = some story ∧ rMedia.Media = some media ∧
      story.URL = "https://x/a.jpg" ∧
      rShare.SharedPayloadURL = "https://x/a.jpg" ∧
      media.URL = "https://x/a.jpg" :=
  ⟨rfl, attachment_extractors_agree_on_url.1 sampleDecls richEnvelope richMessage rfl
    (by decide)⟩

end FirstAttachment

/-! ## Claims C17 to C19: two invocations, two referrals, unrelated sub-payloads -/

section Relational

/-- C17, evaluated on the code: on the bare envelope (every optional sub-payload
absent) an invocation of `GetTextMessageEvent` or of `GetStoryMentionEvent`
yields no record but a nil-dereference panic, so two invocations do not yield
two equal records; `GetMessageDeleteEvent`, which guards the same read, yields
the same record both times. -/
theorem two_invocations_yield_no_records_on_bareEnvelope :
    bareEnvelope.GetTextMessageEvent = .error .nilDereference ∧
    bareEnvelope.GetStoryMentionEvent = .error .nilDereference ∧
    (¬ ∃ r1 r2, bareEnvelope.GetTextMessageEvent = .ok r1 ∧
      bareEnvelope.GetTextMessageEvent = .ok r2 ∧ r1 = r2) ∧
    (¬ ∃ r1 r2, bareEnvelope.GetStoryMentionEvent = .ok r1 ∧
      bareEnvelope.GetStoryMentionEvent = .ok r2 ∧ r1 = r2) ∧
    (∃ r1 r2, bareEnvelope.GetMessageDeleteEvent = .ok r1 ∧
      bareEnvelope.GetMessageDeleteEvent = .ok r2 ∧ r1 = r2) := by
  refine ⟨rfl, rfl, ?_, ?_, ?_⟩
  · rintro ⟨r1, r2, h1, -⟩
    rw [GetTextMessageEvent_of_none bareEnvelope rfl] at h1
    cases h1
  · rintro ⟨r1, r2, h1, -⟩
    rw [GetStoryMentionEvent_of_none bareEnvelope rfl] at h1
    cases h1
  · exact ⟨_, _, GetMessageDeleteEvent_of_none bareEnvelope rfl,
      GetMessageDeleteEvent_of_none bareEnvelope rfl, rfl⟩

variable {D : Decls}

/-- C18: the two referral payloads are kept apart.  On every envelope
`GetReferralEvent` returns the top-level `referral`, and returns the same record
when `message` is replaced by anything or removed; on every envelope with
`message` present `GetTextMessageEvent` returns `message.referral`, and returns
the same record when the top-level `referral` is replaced by anything or
removed. -/
theorem referrals_not_confused (m : Messaging D) :
    (∀ message2 : Option (Message D),
      ∃ r, m.GetReferralEvent = .ok r ∧
        ({ m with Message := message2 }).GetReferralEvent = .ok r ∧
        r.Referral = m.Referral) ∧
    (∀ msg, m.Message = some msg → ∀ referral2 : Option D.ReferralLink,
      ∃ r, m.GetTextMessageEvent = .ok r ∧
        ({ m with Referral := referral2 }).GetTextMessageEvent = .ok r ∧
        r.Referral = msg.Referral) := by
  constructor
  · intro message2
    exact ⟨_, GetReferralEvent_eq m, GetReferralEvent_eq { m with Message := message2 }, rfl⟩
  · intro msg h referral2
    exact ⟨_, GetTextMessageEvent_of_some m msg h,
      GetTextMessageEvent_of_some { m with Referral := referral2 } msg h, rfl⟩

/-- C18 at `richEnvelope`, whose top-level referral is `"top-level"` and whose
message referral is `"ad-42"`. -/
theorem referrals_not_confused_witness :
    richEnvelope.Message = some richMessage ∧
    (∃ r, richEnvelope.GetReferralEvent = .ok r ∧
      ({ richEnvelope with Message := none }).GetReferralEvent = .ok r ∧
      r.Referral = some "top-level") ∧
    (∃ r, richEnvelope.GetReferralEvent = .ok r ∧
      ({ richEnvelope with Message := some plainMessage }).GetReferralEvent = .ok r ∧
      r.Referral = some "top-level") ∧
    (∃ r, richEnvelope.GetTextMessageEvent = .ok r ∧
      ({ richEnvelope with Referral := none }).GetTextMessageEvent = .ok r ∧
      r.Referral = some "ad-42") ∧
    (∃ r, richEnvelope.GetTextMessageEvent = .ok r ∧
      ({ richEnvelope with Referral := some "other" }).GetTextMessageEvent = .ok r ∧
      r.Referral = some "ad-42") :=
  ⟨rfl,
   (referrals_not_confused richEnvelope).1 none,
   (referrals_not_confused richEnvelope).1 (some plainMessage),
   (referrals_not_confused richEnvelope).2 richMessage rfl none,
   (referrals_not_confused richEnvelope).2 richMessage rfl (some "other")⟩

/-- C19: two envelopes that agree on sender, recipient and timestamp get the
same record from `GetMessageSeenEvent` as soon as they agree on `read`, and the
same record from each of `GetMessageDeleteEvent`, `GetQuickReplyEvent`,
`GetMessageReplyEvent`, `GetStoryReplyEvent` and `GetMessageShareEvent` as soon
as they agree on `message`, however their other sub-payloads differ. -/
theorem extractors_read_own_sub_payload (m1 m2 : Messaging D)
    (hs : m1.Sender = m2.Sender) (hr : m1.Recipient = m2.Recipient)
    (ht : m1.Timestamp = m2.Timestamp) :
    (m1.Read = m2.Read →
      ∃ r, m1.GetMessageSeenEvent = .ok r ∧ m2.GetMessageSeenEvent = .ok r) ∧
    (m1.Message = m2.Message →
      (∃ r, m1.GetMessageDeleteEvent = .ok r ∧ m2.GetMessageDeleteEvent = .ok r) ∧
      (∃ r, m1.GetQuickReplyEvent = .ok r ∧ m2.GetQuickReplyEvent = .ok r) ∧
      (∃ r, m1.GetMessageReplyEvent = .ok r ∧ m2.GetMessageReplyEvent = .ok r) ∧
      (∃ r, m1.GetStoryReplyEvent = .ok r ∧ m2.GetStoryReplyEvent = .ok r) ∧
      (∃ r, m1.GetMessageShareEvent = .ok r ∧ m2.GetMessageShareEvent = .ok r)) := by
  constructor
  · intro hread
    cases h2 : m2.Read with
    | none =>
      have h1 : m1.Read = none := hread.trans h2
      refine ⟨_, GetMessageSeenEvent_of_none m1 h1, ?_⟩
      rw [GetMessageSeenEvent_of_none m2 h2, hs, hr, ht]
    | some read =>
      have h1 : m1.Read = some read := hread.trans h2
      refine ⟨_, GetMessageSeenEvent_of_some m1 read h1, ?_⟩
      rw [GetMessageSeenEvent_of_some m2 read h2, hs, hr, ht]
  · intro hmsg
    cases h2 : m2.Message with
    | none =>
      have h1 : m1.Message = none := hmsg.trans h2
      refine ⟨⟨_, GetMessageDeleteEvent_of_none m1 h1, ?_⟩,
        ⟨_, GetQuickReplyEvent_of_none m1 h1, ?_⟩,
        ⟨_, GetMessageReplyEvent_of_none m1 h1, ?_⟩,
        ⟨_, GetStoryReplyEvent_of_none m1 h1, ?_⟩,
        ⟨_, GetMessageShareEvent_of_none m1 h1, ?_⟩⟩
      · rw [GetMessageDeleteEvent_of_none m2 h2, hs, hr, ht]
      · rw [GetQuickReplyEvent_of_none m2 h2, hs, hr, ht]
      · rw [GetMessageReplyEvent_of_none m2 h2, hs, hr, ht]
      · rw [GetStoryReplyEvent_of_none m2 h2, hs, hr, ht]
      · rw [GetMessageShareEvent_of_none m2 h2, hs, hr, ht]
    | some msg =>
      have h1 : m1.Message = some msg := hmsg.trans h2
      refine ⟨⟨_, GetMessageDeleteEvent_of_some m1 msg h1, ?_⟩,
        ⟨_, GetQuickReplyEvent_of_some m1 msg h1, ?_⟩,
        ⟨_, GetMessageReplyEvent_of_some m1 msg h1, ?_⟩,
        ⟨_, GetStoryReplyEvent_of_some m1 msg h1, ?_⟩, ?_⟩
      · rw [GetMessageDeleteEvent_of_some m2 msg h2, hs, hr, ht]
      · rw [GetQuickReplyEvent_of_some m2 msg h2, hs, hr, ht]
      · rw [GetMessageReplyEvent_of_some m2 msg h2, hs, hr, ht]
      · rw [GetStoryReplyEvent_of_some m2 msg h2, hs, hr, ht]
      · rcases list_nil_or_cons msg.Attachments with hl | ⟨a, rest, hl⟩
        · refine ⟨_, GetMessageShareEvent_of_nil m1 msg h1 hl, ?_⟩
          rw [GetMessageShareEvent_of_nil m2 msg h2 hl, hs, hr, ht]
        · refine ⟨_, GetMessageShareEvent_of_cons m1 msg a rest h1 hl, ?_⟩
          rw [GetMessageShareEvent_of_cons m2 msg a rest h2 hl, hs, hr, ht]

/-- C19 at `seenEnvelope` against `seenEnvelopeOther` (same `read`, all other
sub-payloads different) and at `richEnvelope` against `richEnvelopeOther` (same
`message`, all other sub-payloads different). -/
theorem extractors_read_own_sub_payload_witness :
    (seenEnvelope.Sender = seenEnvelopeOther.Sender ∧
      seenEnvelope.Recipient = seenEnvelopeOther.Recipient ∧
      seenEnvelope.Timestamp = seenEnvelopeOther.Timestamp ∧
      seenEnvelope.Read = seenEnvelopeOther.Read ∧
      seenEnvelope.Message ≠ seenEnvelopeOther.Message ∧
      ∃ r, seenEnvelope.GetMessageSeenEvent = .ok r ∧
        seenEnvelopeOther.GetMessageSeenEvent = .ok r ∧ r.SeenMID = "m9") ∧
    (richEnvelope.Sender = richEnvelopeOther.Sender ∧
      richEnvelope.Recipient = richEnvelopeOther.Recipient ∧
      richEnvelope.Timestamp = richEnvelopeOther.Timestamp ∧
      richEnvelope.Message = richEnvelopeOther.Message ∧
      richEnvelope.Read ≠ richEnvelopeOther.Read ∧
      (∃ r, richEnvelope.GetMessageDeleteEvent = .ok r ∧
        richEnvelopeOther.GetMessageDeleteEvent = .ok r) ∧
      (∃ r, richEnvelope.GetQuickReplyEvent = .ok r ∧
        richEnvelopeOther.GetQuickReplyEvent = .ok r) ∧
      (∃ r, richEnvelope.GetMessageReplyEvent = .ok r ∧
        richEnvelopeOther.GetMessageReplyEvent = .ok r) ∧
      (∃ r, richEnvelope.GetStoryReplyEvent = .ok r ∧
        richEnvelopeOther.GetStoryReplyEvent = .ok r) ∧
      (∃ r, richEnvelope.GetMessageShareEvent = .ok r ∧
        richEnvelopeOther.GetMessageShareEvent = .ok r)) := by
  refine ⟨⟨rfl, rfl, rfl, rfl, ?_, ?_⟩, ⟨rfl, rfl, rfl, rfl, ?_, ?_⟩⟩
  · intro h
    cases h
  · obtain ⟨r, h1, h2⟩ :=
      (extractors_read_own_sub_payload seenEnvelope seenEnvelopeOther rfl rfl rfl).1 rfl
    refine ⟨r, h1, h2, ?_⟩
    rw [GetMessageSeenEvent_of_some seenEnvelope { MID := "m9" } rfl] at h1
    cases h1
    rfl
  · intro h
    cases h
  · exact (extractors_read_own_sub_payload richEnvelope richEnvelopeOther rfl rfl rfl).2 rfl

end Relational

end instabot
